import Mathlib

set_option maxRecDepth 100000

/-!
Verification development for the Requirements Intake Orchestrator
(React component `RequirementsInput` and its earlier revision, plus the
validation engine, recording lifecycle controller, file staging queue,
submission orchestrator and error normalizer described in the design
document).

The JavaScript source is shallowly embedded: each pure helper becomes a Lean
function on `String` / lists, and the stateful component becomes explicit
state passing over a `CompState` record.  Network effects are modelled by
passing the remote responses as explicit arguments and recording the
outgoing requests in a `Trace`.
-/

namespace ReqIntake

/-! ## JavaScript character classes and string helpers -/

/-- Character class of the JavaScript regular-expression escape `\s`
(ECMAScript WhiteSpace ∪ LineTerminator), used by `split(/\s+/)`, by the
`\s` inside the strict validator's allow-list, and by
`String.prototype.trim`.  Stated on code points: space, tab, LF, CR, VT,
FF, NBSP (U+00A0), U+1680, U+2000 through U+200A, LS (U+2028), PS (U+2029),
U+202F, U+205F, BOM (U+FEFF) and ideographic space (U+3000). -/
def isJsWhitespace (c : Char) : Bool :=
  c.toNat = 32 || c.toNat = 9 || c.toNat = 10 || c.toNat = 13 ||
  c.toNat = 11 || c.toNat = 12 ||
  c.toNat = 160 || c.toNat = 5760 || (8192 ≤ c.toNat && c.toNat ≤ 8202) ||
  c.toNat = 8232 || c.toNat = 8233 || c.toNat = 8239 || c.toNat = 8287 ||
  c.toNat = 65279 || c.toNat = 12288

/-- ASCII digit `0` to `9`, the character class of the JavaScript escape `\d`. -/
def isAsciiDigit (c : Char) : Bool :=
  48 ≤ c.toNat && c.toNat ≤ 57

/-- ASCII letter, the character class of `[A-Za-z]`. -/
def isAsciiLetter (c : Char) : Bool :=
  (97 ≤ c.toNat && c.toNat ≤ 122) || (65 ≤ c.toNat && c.toNat ≤ 90)

/-- Count of maximal runs of non-whitespace characters.  The flag records
whether the previous character belonged to a word.  This is exactly the
value of the JavaScript idiom
`text.trim().split(/\s+/).filter(word => word.length > 0).length`
used by both revisions of `validateTextInput`. -/
def countWordsAux (inWord : Bool) : List Char → Nat
  | [] => 0
  | c :: cs =>
    if isJsWhitespace c then countWordsAux false cs
    else (if inWord then 0 else 1) + countWordsAux true cs

/-- Whitespace-delimited word count of a string (splitting on runs of
whitespace and discarding empty tokens), as computed in
`validateTextInput` in both revisions. -/
def wordCountJS (s : String) : Nat :=
  countWordsAux false s.data

/-- JavaScript `String.prototype.trim`: drop leading and trailing
whitespace characters. -/
def trimJS (s : String) : String :=
  String.mk (((s.data.dropWhile isJsWhitespace).reverse.dropWhile isJsWhitespace).reverse)

/-- JavaScript truthiness of `text.trim()`: true when the string has at
least one non-whitespace character. -/
def trimTruthy (s : String) : Bool :=
  decide (trimJS s ≠ "")

/-- JavaScript `a || b` on an optional string field `a` (absent and the
empty string are both falsy). -/
def jsOrElse (a : Option String) (b : String) : String :=
  match a with
  | some s => if s = "" then b else s
  | none => b

/-- JavaScript `array.join(', ')`. -/
def joinComma (l : List String) : String :=
  String.intercalate ", " l

/-! ## Validation Engine

Two revisions of `validateTextInput` exist in the source.  The strict one
(Policy A, earlier revision) rejects digits and any character outside a
fixed allow-list; the lenient one (Policy B, current revision) merely
requires at least one letter.  Both end with the same word-count rule. -/

/-- Violation message pushed by the strict validator when the text
contains a digit. -/
def digitMsg : String :=
  "Text should not contain numbers"

/-- Violation message pushed by the strict validator when the text
contains a character outside the allow-list. -/
def symbolMsg : String :=
  "Text should not contain special symbols (only letters and basic punctuation allowed)"

/-- Violation message pushed by the lenient validator when the text
contains no ASCII letter. -/
def letterMsg : String :=
  "Text must include at least one alphabetic character (A-Z)."

/-- Violation message for the word-count rule; both validators interpolate
the actual count. -/
def lengthMsg (n : Nat) : String :=
  "Minimum 50 words required (current: " ++ toString n ++ " words)"

/-- Allow-list of the strict validator: letters, whitespace (`\s`),
period (46), comma (44), exclamation (33), question mark (63), hyphen
(45), apostrophe (39), straight double quote (34) and the four Unicode
curly quotes (U+2018, U+2019, U+201C, U+201D) — the complement of the
character class the strict validator rejects. -/
def isAllowedCharA (c : Char) : Bool :=
  isAsciiLetter c || isJsWhitespace c ||
  c.toNat = 46 || c.toNat = 44 || c.toNat = 33 || c.toNat = 63 ||
  c.toNat = 45 || c.toNat = 39 || c.toNat = 34 ||
  c.toNat = 8216 || c.toNat = 8217 || c.toNat = 8220 || c.toNat = 8221

/-- Strict validator (Policy A), from the earlier revision of
`validateTextInput`: digit check, then disallowed-character check, then
word-count check, pushing messages in that order. -/
def validateTextInputA (text : String) : List String :=
  (if text.data.any isAsciiDigit then [digitMsg] else []) ++
  (if text.data.any (fun c => !isAllowedCharA c) then [symbolMsg] else []) ++
  (if wordCountJS text < 50 then [lengthMsg (wordCountJS text)] else [])

/-- Lenient validator (Policy B), from the current revision of
`validateTextInput`: letter-presence check, then word-count check,
pushing messages in that order. -/
def validateTextInput (text : String) : List String :=
  (if text.data.any isAsciiLetter then [] else [letterMsg]) ++
  (if wordCountJS text < 50 then [lengthMsg (wordCountJS text)] else [])

/-! ## Error Normalizer

The catch block of `processRequirements` inspects
`err.response?.data?.validation_errors`.  The design document closes the
set of wire shapes: a list of per-file items (each an object with a
`file` string and an `errors` string list), a flat list of message
strings, a single string, or no recognizable payload; `vother` stands
for any other truthy value of the field (numbers, plain objects, …).
An absent or falsy field (including the empty string, which is falsy
even though `typeof` would call it a string) is modelled as `none`. -/

/-- Shapes the `validation_errors` field of a failure payload can take. -/
inductive VErrs where
  | vfiles (items : List (String × List String))
  | vstrs (msgs : List String)
  | vstr (msg : String)
  | vother
deriving DecidableEq

/-- Value stored in the `validationErrors` display list: the code stores
either formatted strings or, on one branch, the raw per-file objects. -/
inductive Detail where
  | dstr (s : String)
  | dobj (file : String) (errors : List String)
deriving DecidableEq

/-- Raw failure carried by a rejected network call: the optional
`response.data.error` string, the optional `response.data.validation_errors`
value, and the optional `message` of the thrown error itself. -/
structure FailPayload where
  dataError : Option String
  verrs : Option VErrs
  message : Option String
deriving DecidableEq

/-- The error normalizer: what the catch block of `processRequirements`
assigns to `error` (the headline, `none` meaning the handler assigned
nothing) and to `validationErrors` (the detail list), starting from the
cleared values `error = null`, `validationErrors = []` set at entry to
`processRequirements`. -/
def normalizeError (e : FailPayload) : Option String × List Detail :=
  match e.verrs with
  | none =>
    (some (jsOrElse e.dataError (jsOrElse e.message "An error occurred")), [])
  | some v =>
    match v with
    | .vfiles [] => (none, [])
    | .vfiles (it :: rest) =>
      if it.1 ≠ "" then
        (some "Validation failed for uploaded files",
         (it :: rest).map (fun x => .dstr (x.1 ++ ": " ++ joinComma x.2)))
      else
        (some (jsOrElse e.dataError "Audio content validation failed"),
         (it :: rest).map (fun x => .dobj x.1 x.2))
    | .vstrs [] => (none, [])
    | .vstrs (m :: ms) =>
      (some (jsOrElse e.dataError "Audio content validation failed"),
       (m :: ms).map .dstr)
    | .vstr m =>
      (some (jsOrElse e.dataError "Validation failed"), [.dstr m])
    | .vother => (none, [])

/-! ## Success payloads and the derived-document request -/

/-- JSON-ish success payload of the processing contract: either an array
of result objects or an object with an optional `status` string and an
optional `results` field (itself an arbitrary value).  An absent or
falsy `results` field is modelled as `none`. -/
inductive JData where
  | jarr (items : List JData)
  | jobj (status : Option String) (results : Option JData)

/-- JavaScript `data.status`: the `status` field of an object, undefined
on an array. -/
def JData.statusField : JData → Option String
  | .jarr _ => none
  | .jobj st _ => st

/-- The `requirementsArray` computed inside `generateSRS`: the payload
itself if it is an array, else its `results` field if that is truthy and
an array, else a one-element list holding the whole payload. -/
def requirementsArray (d : JData) : List JData :=
  match d with
  | .jarr l => l
  | .jobj st res =>
    match res with
    | some (.jarr l) => l
    | _ => [JData.jobj st res]

/-- Modelled from the spec (§6, derived-document contract): the `results`
list is "the success payload itself if it is already a list; else its
nested `results` list if present; else a single-element list containing
the whole success payload".  Stated separately from `requirementsArray`
so the code can be checked against the specification's words. -/
def specDerivedResultsList (d : JData) : List JData :=
  match d with
  | .jarr l => l
  | .jobj st res =>
    match res with
    | some (.jarr l) => l
    | some (.jobj st2 r2) => [JData.jobj st (some (.jobj st2 r2))]
    | none => [JData.jobj st none]

/-! ## Component state -/

/-- The three input modalities offered by the component. -/
inductive InputMode where
  | text
  | audio
  | file
deriving DecidableEq

/-- Free-form metadata attached to every submission. -/
structure ProjectInfo where
  title : String
  author : String
  version : String
deriving DecidableEq

/-- An entry of the file staging queue: the file (abstracted to its
name), the generated id, and the status string (initially `pending`). -/
structure StagedFile where
  name : String
  id : Nat
  status : String
deriving DecidableEq

/-- The full state of the `RequirementsInput` component: its `useState`
hooks plus the two refs (`mediaRecorderRef`, `timerRef`).  `liveTimers`
records the interval timers currently scheduled (a timer leaks when
`timerRef` is overwritten without `clearInterval`), and `nextId` supplies
fresh identifiers for recorders, timers, clips and playback URLs. -/
structure CompState where
  inputType : InputMode
  textInput : String
  projectInfo : ProjectInfo
  isProcessing : Bool
  uploadedFiles : List StagedFile
  results : Option JData
  error : Option String
  validationErrors : List Detail
  isRecording : Bool
  audioBlob : Option Nat
  audioUrl : Option Nat
  recordingTime : Nat
  mediaRecorder : Option Nat
  timerRef : Option Nat
  liveTimers : List Nat
  nextId : Nat

/-- The component's initial state. -/
def initState : CompState where
  inputType := .text
  textInput := ""
  projectInfo := ⟨"", "", "1.0"⟩
  isProcessing := false
  uploadedFiles := []
  results := none
  error := none
  validationErrors := []
  isRecording := false
  audioBlob := none
  audioUrl := none
  recordingTime := 0
  mediaRecorder := none
  timerRef := none
  liveTimers := []
  nextId := 0

/-! ## Recording Lifecycle Controller

`startRecording` is async in the source; its success path (device
granted) runs after `getUserMedia` resolves, so we pass the grant as an
argument.  The `onstop` callback of the recorder (which finalizes the
clip, publishes the playback URL and releases the capture stream) fires
when `mediaRecorder.stop()` is called; it is folded into `stopRecording`
here.  Note that neither `startRecording` nor `clearRecording` checks
the current state before acting. -/

/-- The `startRecording` handler.  When the device is granted it installs
a fresh recorder in `mediaRecorderRef` (replacing whatever was there),
sets `isRecording`, resets the duration counter and schedules a fresh
one-second interval timer in `timerRef` — without cancelling any timer
already running.  When the device is denied it only surfaces an error
message and leaves the recording state untouched. -/
def startRecording (granted : Bool) (s : CompState) : CompState :=
  if granted then
    { s with
      mediaRecorder := some s.nextId
      isRecording := true
      recordingTime := 0
      timerRef := some (s.nextId + 1)
      liveTimers := (s.nextId + 1) :: s.liveTimers
      nextId := s.nextId + 2 }
  else
    { s with error := some "Microphone access denied. Please allow microphone access to record audio." }

/-- The `stopRecording` handler: guarded by
`mediaRecorderRef.current && isRecording`, it stops the recorder (whose
`onstop` callback finalizes the clip into `audioBlob`, publishes a
playback URL and releases the capture stream), clears `isRecording` and
cancels the interval held in `timerRef`. -/
def stopRecording (s : CompState) : CompState :=
  match s.mediaRecorder with
  | some _ =>
    if s.isRecording then
      { s with
        isRecording := false
        audioBlob := some s.nextId
        audioUrl := some (s.nextId + 1)
        liveTimers := match s.timerRef with
          | some t => s.liveTimers.erase t
          | none => s.liveTimers
        nextId := s.nextId + 2 }
    else s
  | none => s

/-- The `clearRecording` handler: unconditionally drops the clip, revokes
and drops the playback URL if one exists, and resets the duration
counter to 0. -/
def clearRecording (s : CompState) : CompState :=
  { s with
    audioBlob := none
    audioUrl := none
    recordingTime := 0 }

/-- One second elapsing: every live interval timer fires
`setRecordingTime(prev => prev + 1)` once. -/
def tickSecond (s : CompState) : CompState :=
  { s with recordingTime := s.recordingTime + s.liveTimers.length }

/-! ## File Staging Queue -/

/-- The `onDrop` handler: append each accepted file as a new entry with a
fresh id and status `pending`, preserving arrival order. -/
def onDrop (accepted : List String) (s : CompState) : CompState :=
  let entries := (accepted.enum).map fun p => StagedFile.mk p.2 (s.nextId + p.1) "pending"
  { s with
    uploadedFiles := s.uploadedFiles ++ entries
    nextId := s.nextId + accepted.length }

/-- The `removeFile` handler: drop the entry with the given id. -/
def removeFile (fileId : Nat) (s : CompState) : CompState :=
  { s with uploadedFiles := s.uploadedFiles.filter (fun f => f.id ≠ fileId) }

/-! ## Text draft handlers -/

/-- The `handleTextInputChange` handler: store the new text; when its
trim is truthy, recompute the violation list synchronously from the new
text, otherwise display the empty list without calling the validator. -/
def handleTextInputChange (s : CompState) (newText : String) : CompState :=
  let s1 := { s with textInput := newText }
  if trimTruthy newText then
    { s1 with validationErrors := (validateTextInput newText).map .dstr }
  else
    { s1 with validationErrors := [] }

/-- The violation list the interface displays for a given draft: what
`handleTextInputChange` computes from the text alone. -/
def displayedValidation (text : String) : List Detail :=
  if trimTruthy text then (validateTextInput text).map .dstr else []

/-- A template button's `onClick`: append the template text to the
trimmed draft (after a blank line) when the draft is non-blank, else
replace the draft by the template.  The violation list is not updated. -/
def applyTemplate (s : CompState) (tmpl : String) : CompState :=
  { s with
    textInput :=
      if trimTruthy s.textInput then trimJS s.textInput ++ "\n\n" ++ tmpl
      else tmpl }

/-- The `Analytics Dashboard` quick template from the source. -/
def analyticsTemplate : String :=
  "The application provides interactive charts, filters, and export options for business KPIs. Users can create custom dashboards, schedule reports, and share insights with teams. Data must refresh periodically and maintain accuracy. Access control should restrict sensitive metrics to authorized roles."

/-! ## Submission Orchestrator

`processRequirements` is async with a single suspension point, the
processing-contract call; the derived-document call inside `generateSRS`
is fired without `await`.  Both remote responses are passed in as
explicit arguments and the outgoing requests are recorded in a trace. -/

/-- One of the three request shapes of the processing contract. -/
inductive ProcReq where
  | textReq (content : String) (projectInfo : ProjectInfo)
  | audioReq (projectInfo : ProjectInfo)
  | filesReq (files : List String) (projectInfo : ProjectInfo)
deriving DecidableEq

/-- Result of a remote call: the parsed response data, or a failure. -/
inductive NetResult where
  | ok (data : JData)
  | fail (err : FailPayload)

/-- Observable record of one `processRequirements` run: the processing
requests issued, the derived-document requests issued (their `results`
list and project info), and the document delivered to `onSRSGenerated`
when the derived-document call succeeded. -/
structure Trace where
  procReqs : List ProcReq
  srsReqs : List (List JData × ProjectInfo)
  srsDelivered : Option JData

/-- Outcome of the synchronous prefix of `processRequirements`: either an
exit before any network activity, or the state at the suspension point
together with the request about to be issued. -/
inductive Phase1Out where
  | early (s : CompState)
  | request (s : CompState) (req : ProcReq)

/-- Applying the catch block's assignments to the component state. -/
def applyNormalize (s : CompState) (e : FailPayload) : CompState :=
  { s with
    error := (normalizeError e).1
    validationErrors := (normalizeError e).2 }

/-- Synchronous prefix of `processRequirements`: set the processing flag,
clear the error and violation displays, re-run the validator when the
text modality is active with a non-blank draft (aborting locally on any
violation), then pick the request shape in source order — text modality
with non-blank draft, else audio modality with a captured clip, else a
non-empty staging queue — or fail with the no-input error, which the
catch block surfaces through its message-only path. -/
def submitPhase1 (s : CompState) : Phase1Out :=
  let s1 := { s with isProcessing := true, error := none, validationErrors := [] }
  if s1.inputType = .text ∧ trimTruthy s1.textInput ∧ validateTextInput s1.textInput ≠ [] then
    .early { s1 with
      error := some "Please fix validation errors before processing"
      isProcessing := false }
  else if s1.inputType = .text ∧ trimTruthy s1.textInput then
    .request s1 (.textReq s1.textInput s1.projectInfo)
  else if s1.inputType = .audio ∧ s1.audioBlob.isSome then
    .request s1 (.audioReq s1.projectInfo)
  else if s1.uploadedFiles ≠ [] then
    .request s1 (.filesReq (s1.uploadedFiles.map (fun f => f.name)) s1.projectInfo)
  else
    .early { applyNormalize s1
        ⟨none, none, some "Please provide text input, record audio, or upload files"⟩ with
      isProcessing := false }

/-- Resolution of the suspension point: on success record the results and
chain `generateSRS` exactly when `status === 'completed'` (the
derived-document call's own failure is only logged); on failure run the
error normalizer.  The `finally` clause clears the processing flag on
every path. -/
def submitFinish (s : CompState) (req : ProcReq) (procResp srsResp : NetResult) :
    CompState × Trace :=
  match procResp with
  | .ok d =>
    let s2 := { s with results := some d, isProcessing := false }
    if d.statusField = some "completed" then
      match srsResp with
      | .ok doc => (s2, ⟨[req], [(requirementsArray d, s.projectInfo)], some doc⟩)
      | .fail _ => (s2, ⟨[req], [(requirementsArray d, s.projectInfo)], none⟩)
    else
      (s2, ⟨[req], [], none⟩)
  | .fail e =>
    ({ applyNormalize s e with isProcessing := false }, ⟨[req], [], none⟩)

/-- The whole `processRequirements` handler, with the two remote
responses supplied as arguments.  When no processing request is issued,
`procResp` and `srsResp` are unused and the trace is empty. -/
def processRequirements (s : CompState) (procResp srsResp : NetResult) :
    CompState × Trace :=
  match submitPhase1 s with
  | .early s1 => (s1, ⟨[], [], none⟩)
  | .request s1 req => submitFinish s1 req procResp srsResp

/-- The `disabled` expression of the Process Requirements button. -/
def processButtonDisabled (s : CompState) : Bool :=
  s.isProcessing ||
  (!trimTruthy s.textInput && s.uploadedFiles.isEmpty && s.audioBlob.isNone) ||
  (s.inputType = .text && !s.validationErrors.isEmpty)

/-! ## Concrete fixtures used by witnesses and counterexamples -/

/-- A text of exactly fifty whitespace-delimited one-letter words. -/
def fiftyWords : String :=
  String.intercalate " " (List.replicate 50 "a")

/-- A text of exactly forty-nine whitespace-delimited one-letter words. -/
def fortyNineWords : String :=
  String.intercalate " " (List.replicate 49 "a")

/-- The state reached by selecting the audio modality while a valid
fifty-word draft, a captured clip and one staged file are all present. -/
def allThreeAudioState : CompState :=
  { initState with
    inputType := .audio
    textInput := fiftyWords
    audioBlob := some 7
    audioUrl := some 8
    uploadedFiles := [⟨"a.txt", 3, "pending"⟩] }

/-- The state reached with the text modality selected and a valid
fifty-word draft. -/
def textReadyState : CompState :=
  { initState with textInput := fiftyWords }

/-- The state with the text modality selected, a valid fifty-word draft,
a captured clip and one staged file all present. -/
def textAllThreeState : CompState :=
  { initState with
    textInput := fiftyWords
    audioBlob := some 7
    audioUrl := some 8
    uploadedFiles := [⟨"a.txt", 3, "pending"⟩] }

/-- A trivial success payload with no status field. -/
def pendingData : JData := .jobj none none

/-- A success payload with `status` equal to `completed`. -/
def completedData : JData := .jobj (some "completed") none

/-- State during an ongoing recording, three seconds in: produced by
`startRecording` on the initial state followed by three timer ticks. -/
def recordingState : CompState :=
  tickSecond (tickSecond (tickSecond (startRecording true initState)))

/-- A failure payload whose `validation_errors` field is present but is
an empty array, while a transport message is available. -/
def emptyArrayFailure : FailPayload :=
  ⟨none, some (.vfiles []), some "Network Error"⟩

/-- State after typing the draft `12` into the text area. -/
def typedDigitsState : CompState :=
  handleTextInputChange initState "12"

/-- State after then clicking the Analytics Dashboard template button. -/
def templateInsertedState : CompState :=
  applyTemplate typedDigitsState analyticsTemplate

/-! ## The claims under test, stated as propositions -/

/-- Claim C1 as stated: in every state where a non-empty valid draft, a
captured clip and a non-empty staging queue coexist, `submit` sends the
text payload; and in every state where none of the three is present it
fails with the no-input error without issuing any network request. -/
def claimC1Prop : Prop :=
  (∀ (s : CompState) (pr sr : NetResult),
    trimTruthy s.textInput = true → validateTextInput s.textInput = [] →
    s.audioBlob.isSome = true → s.uploadedFiles ≠ [] →
    (processRequirements s pr sr).2.procReqs = [.textReq s.textInput s.projectInfo]) ∧
  (∀ (s : CompState) (pr sr : NetResult),
    trimTruthy s.textInput = false → s.audioBlob = none → s.uploadedFiles = [] →
    (processRequirements s pr sr).2.procReqs = [] ∧
    (processRequirements s pr sr).1.error =
      some "Please provide text input, record audio, or upload files")

/-- Claim C2 as stated: `start` while Recording is rejected (leaves the
state untouched), `clear` while Idle is rejected (leaves the state
untouched), and `stop` outside Recording is a no-op. -/
def claimC2Prop : Prop :=
  (∀ s : CompState, s.isRecording = true → startRecording true s = s) ∧
  (∀ s : CompState, s.isRecording = false → s.audioBlob = none → clearRecording s = s) ∧
  (∀ s : CompState, s.isRecording = false → stopRecording s = s)

/-- Claim C3 as stated: inserting one digit character anywhere into a
text that passes the strict validator yields exactly the digit-content
violation and nothing else. -/
def claimC3Prop : Prop :=
  ∀ (a b : List Char) (d : Char), isAsciiDigit d = true →
    validateTextInputA (String.mk (a ++ b)) = [] →
    validateTextInputA (String.mk (a ++ d :: b)) = [digitMsg]

/-- Claim C4 as stated: the error normalizer is total — it always
produces a headline — and handles the per-file shape, the flat string
list, the single string, and the absent shape as described. -/
def claimC4Prop : Prop :=
  ∀ e : FailPayload,
    (normalizeError e).1.isSome = true ∧
    (∀ it rest, e.verrs = some (.vfiles (it :: rest)) → it.1 ≠ "" →
      normalizeError e = (some "Validation failed for uploaded files",
        (it :: rest).map (fun x => .dstr (x.1 ++ ": " ++ joinComma x.2)))) ∧
    (∀ m ms, e.verrs = some (.vstrs (m :: ms)) →
      (normalizeError e).2 = (m :: ms).map .dstr) ∧
    (∀ m, e.verrs = some (.vstr m) → (normalizeError e).2 = [.dstr m]) ∧
    (e.verrs = none →
      normalizeError e =
        (some (jsOrElse e.dataError (jsOrElse e.message "An error occurred")), []))

/-- Claim C7 as stated: every text-changing operation — the change
handler and the template buttons — leaves the displayed violation list
equal to the one recomputed from the current draft. -/
def claimC7Prop : Prop :=
  (∀ (s : CompState) (t : String),
    (handleTextInputChange s t).validationErrors =
      displayedValidation (handleTextInputChange s t).textInput) ∧
  (∀ (s : CompState) (tmpl : String),
    (applyTemplate s tmpl).validationErrors =
      displayedValidation (applyTemplate s tmpl).textInput)

/-! ## Helper lemmas -/

theorem data_append (a b : String) : (a ++ b).data = a.data ++ b.data := by
  cases a; cases b; rfl

theorem digit_not_ws {c : Char} (h : isAsciiDigit c = true) : isJsWhitespace c = false := by
  simp only [isAsciiDigit, Bool.and_eq_true, decide_eq_true_eq] at h
  simp only [isJsWhitespace, Bool.or_eq_false_iff, decide_eq_false_iff_not,
    Bool.and_eq_false_iff]
  omega

theorem digit_not_allowed {c : Char} (h : isAsciiDigit c = true) : isAllowedCharA c = false := by
  simp only [isAsciiDigit, Bool.and_eq_true, decide_eq_true_eq] at h
  simp only [isAllowedCharA, isAsciiLetter, isJsWhitespace, Bool.or_eq_false_iff,
    decide_eq_false_iff_not, Bool.and_eq_false_iff]
  omega

theorem ws_not_letter {c : Char} (h : isJsWhitespace c = true) : isAsciiLetter c = false := by
  simp only [isJsWhitespace, Bool.or_eq_true, decide_eq_true_eq, Bool.and_eq_true] at h
  simp only [isAsciiLetter, Bool.or_eq_false_iff, Bool.and_eq_false_iff,
    decide_eq_false_iff_not]
  omega

theorem countWordsAux_flag_bounds (l : List Char) :
    countWordsAux true l ≤ countWordsAux false l ∧
    countWordsAux false l ≤ countWordsAux true l + 1 := by
  cases l with
  | nil => simp [countWordsAux]
  | cons c cs =>
    by_cases h : isJsWhitespace c <;> simp [countWordsAux, h] <;> omega

theorem countWordsAux_insert_mono (d : Char) (hd : isJsWhitespace d = false) :
    ∀ (a : List Char) (flag : Bool) (b : List Char),
      countWordsAux flag (a ++ b) ≤ countWordsAux flag (a ++ d :: b) := by
  intro a
  induction a with
  | nil =>
    intro flag b
    have h1 := (countWordsAux_flag_bounds b).1
    have h2 := (countWordsAux_flag_bounds b).2
    cases flag <;> simp [countWordsAux, hd] <;> omega
  | cons c cs ih =>
    intro flag b
    by_cases h : isJsWhitespace c
    · simp only [List.cons_append, countWordsAux, h, if_true]
      exact ih false b
    · simp only [List.cons_append, countWordsAux, h, if_false]
      exact Nat.add_le_add_left (ih true b) _

theorem countWordsAux_all_ws {l : List Char} (h : ∀ c ∈ l, isJsWhitespace c = true) :
    ∀ flag, countWordsAux flag l = 0 := by
  induction l with
  | nil => intro flag; rfl
  | cons c cs ih =>
    intro flag
    have hc : isJsWhitespace c = true := h c (List.mem_cons_self c cs)
    simp only [countWordsAux, hc, if_true]
    exact ih (fun x hx => h x (List.mem_cons_of_mem c hx)) false

theorem trimTruthy_false_all_ws {s : String} (h : trimTruthy s = false) :
    ∀ c ∈ s.data, isJsWhitespace c = true := by
  have h1 : trimJS s = "" := by
    simpa [trimTruthy, decide_eq_false_iff_not] using h
  have h2 : ((s.data.dropWhile isJsWhitespace).reverse.dropWhile isJsWhitespace).reverse = [] := by
    have := congrArg String.data h1
    simpa [trimJS] using this
  rw [List.reverse_eq_nil_iff, List.dropWhile_eq_nil_iff] at h2
  intro c hc
  rcases List.mem_append.mp
      (by rw [List.takeWhile_append_dropWhile (p := isJsWhitespace) (l := s.data)]; exact hc) with
    htk | hdr
  · exact List.mem_takeWhile_imp htk
  · exact h2 c (List.mem_reverse.mpr hdr)

theorem lengthMsg_head (n : Nat) : (lengthMsg n).data.head? = some 'M' := by
  unfold lengthMsg
  rw [data_append, data_append]
  rfl

theorem lengthMsg_ne_digitMsg (n : Nat) : lengthMsg n ≠ digitMsg := by
  intro h
  have h2 : (lengthMsg n).data.head? = digitMsg.data.head? := by rw [h]
  rw [lengthMsg_head] at h2
  exact absurd h2 (by decide)

theorem lengthMsg_ne_symbolMsg (n : Nat) : lengthMsg n ≠ symbolMsg := by
  intro h
  have h2 : (lengthMsg n).data.head? = symbolMsg.data.head? := by rw [h]
  rw [lengthMsg_head] at h2
  exact absurd h2 (by decide)

theorem lengthMsg_ne_letterMsg (n : Nat) : lengthMsg n ≠ letterMsg := by
  intro h
  have h2 : (lengthMsg n).data.head? = letterMsg.data.head? := by rw [h]
  rw [lengthMsg_head] at h2
  exact absurd h2 (by decide)

theorem submitPhase1_inv (s : CompState) :
    match submitPhase1 s with
    | .early s1 => s1.isProcessing = false
    | .request s1 _ => s1.isProcessing = true ∧ s1.error = none := by
  simp only [submitPhase1]
  split_ifs <;> first | exact ⟨rfl, rfl⟩ | rfl

theorem submitFinish_procReqs (s1 : CompState) (req : ProcReq) (pr sr : NetResult) :
    (submitFinish s1 req pr sr).2.procReqs = [req] := by
  cases pr with
  | ok d =>
    simp only [submitFinish]
    by_cases h : d.statusField = some "completed"
    · rw [if_pos h]; cases sr <;> rfl
    · rw [if_neg h]
  | fail e => rfl

theorem isProcessing_final (s : CompState) (pr sr : NetResult) :
    (processRequirements s pr sr).1.isProcessing = false := by
  have hinv := submitPhase1_inv s
  unfold processRequirements
  cases hp : submitPhase1 s with
  | early s1 =>
    rw [hp] at hinv
    exact hinv
  | request s1 req =>
    cases pr with
    | ok d =>
      simp only [submitFinish]
      by_cases h : d.statusField = some "completed"
      · rw [if_pos h]; cases sr <;> rfl
      · rw [if_neg h]
    | fail e => rfl

/-! ## Claim theorems -/

/-- Claim C9: for every success payload, the `results` list sent to the
derived-document contract is the payload itself when it is already a
list, else the payload's nested `results` field when that field is
present and a list, else a single-element list containing the whole
payload — the code's `requirementsArray` coincides with the
specification's construction on every payload. -/
theorem c9_derived_results_list (d : JData) :
    requirementsArray d = specDerivedResultsList d := by
  cases d with
  | jarr l => rfl
  | jobj st res =>
    cases res with
    | none => rfl
    | some r => cases r <;> rfl

/-- Claim C10: for a blank (all-whitespace or empty) draft, the change
handler displays the empty violation list without consulting the
validator, although the validator itself would report both the
letter-content violation and a length violation counting zero words. -/
theorem c10_blank_draft_displayed_valid (s : CompState) (t : String)
    (h : trimTruthy t = false) :
    (handleTextInputChange s t).validationErrors = [] ∧
    validateTextInput t = [letterMsg, lengthMsg 0] := by
  constructor
  · simp [handleTextInputChange, h]
  · have hws := trimTruthy_false_all_ws h
    have hnl : t.data.any isAsciiLetter = false := by
      rw [List.any_eq_false]
      intro c hc
      rw [ws_not_letter (hws c hc)]
      simp
    have hwc : wordCountJS t = 0 := countWordsAux_all_ws hws false
    simp [validateTextInput, hnl, hwc]

/-- Witness for claim C10 at the one-space draft. -/
theorem c10_blank_draft_displayed_valid_witness :
    (handleTextInputChange initState " ").validationErrors = [] ∧
    validateTextInput " " = [letterMsg, lengthMsg 0] :=
  c10_blank_draft_displayed_valid initState " " (by decide)

/-- Claim C8: a text of exactly 49 whitespace-delimited words always
receives a length violation carrying the count 49, and a text of 50 or
more words never receives a length violation of any count — under both
the strict and the lenient validator. -/
theorem c8_word_count_rule (t : String) :
    (wordCountJS t = 49 →
      lengthMsg 49 ∈ validateTextInputA t ∧ lengthMsg 49 ∈ validateTextInput t) ∧
    (50 ≤ wordCountJS t →
      (∀ n, lengthMsg n ∉ validateTextInputA t) ∧
      (∀ n, lengthMsg n ∉ validateTextInput t)) := by
  constructor
  · intro h
    constructor
    · unfold validateTextInputA
      rw [h]
      simp
    · unfold validateTextInput
      rw [h]
      simp
  · intro h
    have hlt : ¬ wordCountJS t < 50 := by omega
    constructor
    · intro n hn
      simp only [validateTextInputA, if_neg hlt, List.append_nil, List.mem_append] at hn
      rcases hn with hn | hn
      · by_cases h1 : t.data.any isAsciiDigit
        · rw [if_pos h1] at hn
          simp only [List.mem_singleton] at hn
          exact lengthMsg_ne_digitMsg n hn
        · rw [if_neg h1] at hn
          simp at hn
      · by_cases h2 : t.data.any (fun c => !isAllowedCharA c)
        · rw [if_pos h2] at hn
          simp only [List.mem_singleton] at hn
          exact lengthMsg_ne_symbolMsg n hn
        · rw [if_neg h2] at hn
          simp at hn
    · intro n hn
      simp only [validateTextInput, if_neg hlt, List.append_nil] at hn
      by_cases h1 : t.data.any isAsciiLetter
      · rw [if_pos h1] at hn
        simp at hn
      · rw [if_neg h1] at hn
        simp only [List.mem_singleton] at hn
        exact lengthMsg_ne_letterMsg n hn

/-- Witness for claim C8: the 49-word text gets the counted violation
under the strict validator, and the 50-word text gets no length
violation under the lenient one. -/
theorem c8_word_count_rule_witness :
    lengthMsg 49 ∈ validateTextInputA fortyNineWords ∧
    lengthMsg 7 ∉ validateTextInput fiftyWords :=
  ⟨((c8_word_count_rule fortyNineWords).1 (by decide)).1,
   ((c8_word_count_rule fiftyWords).2 (by decide)).2 7⟩

/-- Claim C6: `submit` sets the processing flag before its single
suspension point, clears it on every exit path (so it is false after
any terminal outcome), and while the flag is set the submit entry point
is disabled, preventing a second in-flight submission. -/
theorem c6_processing_flag (s : CompState) (pr sr : NetResult) :
    (processRequirements s pr sr).1.isProcessing = false ∧
    (match submitPhase1 s with
     | .early s1 => s1.isProcessing = false
     | .request s1 _ => s1.isProcessing = true) ∧
    (s.isProcessing = true → processButtonDisabled s = true) := by
  refine ⟨isProcessing_final s pr sr, ?_, ?_⟩
  · have hinv := submitPhase1_inv s
    cases hp : submitPhase1 s with
    | early s1 => rw [hp] at hinv; exact hinv
    | request s1 req => rw [hp] at hinv; exact hinv.1
  · intro h
    simp [processButtonDisabled, h]

/-- Witness for claim C6 at a processing state with a valid draft. -/
theorem c6_processing_flag_witness :
    (processRequirements textReadyState (.ok completedData) (.fail emptyArrayFailure)).1.isProcessing
      = false ∧
    processButtonDisabled { textReadyState with isProcessing := true } = true :=
  ⟨(c6_processing_flag textReadyState (.ok completedData) (.fail emptyArrayFailure)).1,
   (c6_processing_flag { textReadyState with isProcessing := true }
      (.ok completedData) (.fail emptyArrayFailure)).2.2 rfl⟩

/-- Claim C5: whenever a submission reaches the network and the
processing call succeeds, the derived-document contract is invoked
exactly once if the response's status is `completed` and zero times
otherwise, and even when the derived-document call itself fails the
submission still records the result with no error — it is never
reported as failed. -/
theorem c5_completed_chaining (s : CompState) (d : JData) (sr : NetResult)
    (h : (processRequirements s (.ok d) sr).2.procReqs ≠ []) :
    (processRequirements s (.ok d) sr).2.srsReqs.length =
      (if d.statusField = some "completed" then 1 else 0) ∧
    (processRequirements s (.ok d) sr).1.error = none ∧
    (processRequirements s (.ok d) sr).1.results = some d := by
  have hinv := submitPhase1_inv s
  unfold processRequirements at h ⊢
  cases hp : submitPhase1 s with
  | early s1 =>
    rw [hp] at h
    exact absurd rfl h
  | request s1 req =>
    rw [hp] at hinv
    simp only [submitFinish]
    by_cases hst : d.statusField = some "completed"
    · rw [if_pos hst, if_pos hst]
      cases sr with
      | ok doc => exact ⟨rfl, hinv.2, rfl⟩
      | fail e => exact ⟨rfl, hinv.2, rfl⟩
    · rw [if_neg hst, if_neg hst]
      exact ⟨rfl, hinv.2, rfl⟩

/-- Witness for claim C5: a completed response chains exactly one
derived-document call and the submission stays successful even though
the derived-document call fails. -/
theorem c5_completed_chaining_witness :
    (processRequirements textReadyState (.ok completedData)
        (.fail emptyArrayFailure)).2.srsReqs.length = 1 ∧
    (processRequirements textReadyState (.ok completedData)
        (.fail emptyArrayFailure)).1.error = none := by
  have h := c5_completed_chaining textReadyState completedData
      (.fail emptyArrayFailure) (by decide)
  exact ⟨h.1, h.2.1⟩

/-- Claim C1 as stated is false: in a state where a valid fifty-word
draft, a captured clip and a staged file are all present but the
selected modality is audio, `submit` sends the audio payload, not the
text payload — the branch order is gated on the selected input mode. -/
theorem c1_counterexample : ¬ claimC1Prop := by
  intro h
  have h2 := h.1 allThreeAudioState (.ok pendingData) (.ok pendingData)
    (by decide) (by decide) (by decide) (by decide)
  exact absurd h2 (by decide)

/-- Claim C1 amended: when the text modality is selected, a non-blank
draft passing validation is always submitted as the text payload (so
with all three payloads present the text one wins), and when none of
the three inputs is present, `submit` issues no network request and
fails with the no-input message. -/
theorem c1_amended_text_priority (s : CompState) (pr sr : NetResult) :
    (s.inputType = .text → trimTruthy s.textInput = true →
      validateTextInput s.textInput = [] →
      (processRequirements s pr sr).2.procReqs = [.textReq s.textInput s.projectInfo]) ∧
    (trimTruthy s.textInput = false → s.audioBlob = none → s.uploadedFiles = [] →
      (processRequirements s pr sr).2.procReqs = [] ∧
      (processRequirements s pr sr).2.srsReqs = [] ∧
      (processRequirements s pr sr).1.error =
        some "Please provide text input, record audio, or upload files") := by
  constructor
  · intro h1 h2 h3
    unfold processRequirements
    have hphase : submitPhase1 s =
        .request { s with isProcessing := true, error := none, validationErrors := [] }
          (.textReq s.textInput s.projectInfo) := by
      simp only [submitPhase1]
      rw [if_neg (by simp [h1, h2, h3]), if_pos (by simp [h1, h2])]
    rw [hphase]
    exact submitFinish_procReqs _ _ pr sr
  · intro h1 h2 h3
    unfold processRequirements
    have hphase : submitPhase1 s =
        .early { applyNormalize { s with isProcessing := true, error := none, validationErrors := [] }
            ⟨none, none, some "Please provide text input, record audio, or upload files"⟩ with
          isProcessing := false } := by
      simp only [submitPhase1]
      rw [if_neg (by simp [h1]), if_neg (by simp [h1]), if_neg (by simp [h2]),
        if_neg (by simp [h3])]
    rw [hphase]
    exact ⟨rfl, rfl, rfl⟩

/-- Witness for the amended claim C1: with the text modality selected
and all three payloads present the text request is sent, and the empty
initial state yields the no-input failure with no request. -/
theorem c1_amended_text_priority_witness :
    (processRequirements textAllThreeState (.ok pendingData)
        (.ok pendingData)).2.procReqs =
      [.textReq textAllThreeState.textInput textAllThreeState.projectInfo] ∧
    (processRequirements initState (.ok pendingData) (.ok pendingData)).2.procReqs = [] :=
  ⟨(c1_amended_text_priority textAllThreeState (.ok pendingData) (.ok pendingData)).1
      rfl (by decide) (by decide),
   ((c1_amended_text_priority initState (.ok pendingData) (.ok pendingData)).2
      (by decide) rfl rfl).1⟩

/-- Claim C2 as stated is false: `startRecording` is not state-guarded.
Called during an ongoing recording it does not leave the state
unchanged — it resets the running duration counter (among other
effects). -/
theorem c2_counterexample : ¬ claimC2Prop := by
  intro h
  have h2 := h.1 recordingState (by decide)
  have h3 : (startRecording true recordingState).recordingTime =
      recordingState.recordingTime := by rw [h2]
  exact absurd h3 (by decide)

/-- Claim C2 amended: `stop` outside Recording is a no-op; `clear` in
Idle is a silent no-op (leaving the state unchanged, not an error); but
`start` is unguarded: called while Recording it schedules a second live
timer without cancelling the first, resets the running duration counter
to 0, and installs a fresh recorder in place of the live one. -/
theorem c2_amended_lifecycle (s : CompState) :
    (s.isRecording = false → stopRecording s = s) ∧
    (s.isRecording = false → s.audioBlob = none → s.audioUrl = none →
      s.recordingTime = 0 → clearRecording s = s) ∧
    (s.isRecording = true →
      (startRecording true s).liveTimers.length = s.liveTimers.length + 1 ∧
      (startRecording true s).recordingTime = 0 ∧
      (startRecording true s).mediaRecorder = some s.nextId ∧
      (startRecording true s).isRecording = true) := by
  refine ⟨?_, ?_, ?_⟩
  · intro h
    rcases hm : s.mediaRecorder with _ | r <;> simp [stopRecording, hm, h]
  · intro h hb hu ht
    cases s
    simp_all [clearRecording]
  · intro h
    refine ⟨?_, rfl, rfl, rfl⟩
    simp [startRecording]

/-- Witness for the amended claim C2: `stop` on the idle initial state
is a no-op, and `start` three seconds into a recording doubles the live
timers and zeroes the counter. -/
theorem c2_amended_lifecycle_witness :
    stopRecording initState = initState ∧
    (startRecording true recordingState).liveTimers.length =
      recordingState.liveTimers.length + 1 ∧
    (startRecording true recordingState).recordingTime = 0 :=
  ⟨(c2_amended_lifecycle initState).1 rfl,
   ((c2_amended_lifecycle recordingState).2.2 (by decide)).1,
   ((c2_amended_lifecycle recordingState).2.2 (by decide)).2.1⟩

/-- Claim C3 as stated is false: under the strict validator a digit is
also outside the allowed character class, so inserting the digit 5 into
a passing fifty-word text yields the digit violation and the
special-symbol violation, not the digit violation alone. -/
theorem c3_counterexample : ¬ claimC3Prop := by
  intro h
  have h2 := h [] fiftyWords.data '5' (by decide) (by decide)
  exact absurd h2 (by decide)

/-- Claim C3 amended: inserting a single digit character anywhere into a
text that passes the strict validator yields exactly two violations, the
digit-content violation followed by the special-symbol violation, and in
particular no length violation. -/
theorem c3_amended_digit_insertion (a b : List Char) (d : Char)
    (hd : isAsciiDigit d = true)
    (h : validateTextInputA (String.mk (a ++ b)) = []) :
    validateTextInputA (String.mk (a ++ d :: b)) = [digitMsg, symbolMsg] := by
  have h1 : (a ++ b).any isAsciiDigit = false := by
    by_contra hc
    rw [Bool.not_eq_false] at hc
    simp only [validateTextInputA, hc, if_true] at h
    simp at h
  have h2 : (a ++ b).any (fun c => !isAllowedCharA c) = false := by
    by_contra hc
    rw [Bool.not_eq_false] at hc
    simp only [validateTextInputA, h1, hc, if_true] at h
    simp at h
  have h3 : ¬ wordCountJS (String.mk (a ++ b)) < 50 := by
    by_contra hc
    simp only [validateTextInputA, h1, h2, if_pos hc] at h
    simp at h
  have g1 : (a ++ d :: b).any isAsciiDigit = true :=
    List.any_eq_true.mpr ⟨d, by simp, hd⟩
  have g2 : (a ++ d :: b).any (fun c => !isAllowedCharA c) = true :=
    List.any_eq_true.mpr ⟨d, by simp, by rw [digit_not_allowed hd]; rfl⟩
  have g3 : ¬ wordCountJS (String.mk (a ++ d :: b)) < 50 := by
    have hmono := countWordsAux_insert_mono d (digit_not_ws hd) a false b
    unfold wordCountJS at h3 ⊢
    simp only at h3 ⊢
    omega
  simp [validateTextInputA, g1, g2, g3]

/-- Witness for the amended claim C3: prefixing the digit 5 to the
fifty-word text produces exactly the digit and special-symbol
violations. -/
theorem c3_amended_digit_insertion_witness :
    validateTextInputA (String.mk ([] ++ '5' :: fiftyWords.data)) =
      [digitMsg, symbolMsg] :=
  c3_amended_digit_insertion [] fiftyWords.data '5' (by decide) (by decide)

/-- Claim C4 as stated is false: a failure payload whose
`validation_errors` field is an empty array slips through every branch
of the catch block — no headline is produced at all, so the normalizer
is not total. -/
theorem c4_counterexample : ¬ claimC4Prop := by
  intro h
  have h2 := (h emptyArrayFailure).1
  exact absurd h2 (by decide)

/-- Claim C4 amended: the normalizer handles the non-empty per-file list
(with a truthy first identifier), the non-empty flat string list, the
single string, and the absent-field shapes as claimed, but a present
`validation_errors` value that is an empty list or an unrecognized
non-list, non-string value sets neither headline nor details. -/
theorem c4_amended_normalizer (e : FailPayload) :
    (∀ it rest, e.verrs = some (.vfiles (it :: rest)) → it.1 ≠ "" →
      normalizeError e = (some "Validation failed for uploaded files",
        (it :: rest).map (fun x => .dstr (x.1 ++ ": " ++ joinComma x.2)))) ∧
    (∀ m ms, e.verrs = some (.vstrs (m :: ms)) →
      normalizeError e = (some (jsOrElse e.dataError "Audio content validation failed"),
        (m :: ms).map .dstr)) ∧
    (∀ m, e.verrs = some (.vstr m) →
      normalizeError e = (some (jsOrElse e.dataError "Validation failed"), [.dstr m])) ∧
    (e.verrs = none →
      normalizeError e =
        (some (jsOrElse e.dataError (jsOrElse e.message "An error occurred")), [])) ∧
    (e.verrs = some (.vfiles []) ∨ e.verrs = some (.vstrs []) ∨ e.verrs = some .vother →
      normalizeError e = (none, [])) := by
  refine ⟨?_, ?_, ?_, ?_, ?_⟩
  · intro it rest hv hne
    simp only [normalizeError, hv]
    rw [if_pos hne]
  · intro m ms hv
    simp only [normalizeError, hv]
  · intro m hv
    simp only [normalizeError, hv]
  · intro hv
    simp only [normalizeError, hv]
  · intro hv
    rcases hv with hv | hv | hv <;> simp only [normalizeError, hv]

/-- Witness for the amended claim C4: a one-item per-file payload
produces the generic headline and the formatted detail line. -/
theorem c4_amended_normalizer_witness :
    normalizeError ⟨some "err", some (.vfiles [("a.txt", ["too short"])]), none⟩ =
      (some "Validation failed for uploaded files",
       [.dstr ("a.txt" ++ ": " ++ joinComma ["too short"])]) :=
  (c4_amended_normalizer ⟨some "err", some (.vfiles [("a.txt", ["too short"])]), none⟩).1
    ("a.txt", ["too short"]) [] rfl (by decide)

/-- Claim C7 as stated is false: the template buttons change the draft
without recomputing the violation list, so after inserting the Analytics
Dashboard template over the draft `12` the displayed list is stale with
respect to the current text. -/
theorem c7_counterexample : ¬ claimC7Prop := by
  intro h
  have h2 := h.2 typedDigitsState analyticsTemplate
  exact absurd h2 (by decide)

/-- Claim C7 amended: the change handler always recomputes the displayed
violation list synchronously from the new text, but a template insertion
leaves the previous list in place; the stale list can only mislead the
display — `submit` re-runs the validator on the current draft and
aborts with no network request whenever it reports violations. -/
theorem c7_amended_revalidation :
    (∀ (s : CompState) (t : String),
      (handleTextInputChange s t).validationErrors = displayedValidation t ∧
      (handleTextInputChange s t).textInput = t) ∧
    (∀ (s : CompState) (tmpl : String),
      (applyTemplate s tmpl).validationErrors = s.validationErrors) ∧
    (∀ (s : CompState) (pr sr : NetResult),
      s.inputType = .text → trimTruthy s.textInput = true →
      validateTextInput s.textInput ≠ [] →
      (processRequirements s pr sr).2.procReqs = [] ∧
      (processRequirements s pr sr).1.error =
        some "Please fix validation errors before processing") := by
  refine ⟨?_, ?_, ?_⟩
  · intro s t
    by_cases h : trimTruthy t <;>
      simp [handleTextInputChange, displayedValidation, h]
  · intro s tmpl
    rfl
  · intro s pr sr h1 h2 h3
    unfold processRequirements
    have hphase : submitPhase1 s =
        .early { s with
          isProcessing := false
          error := some "Please fix validation errors before processing"
          validationErrors := [] } := by
      simp only [submitPhase1]
      rw [if_pos (by simp [h1, h2, h3])]
    rw [hphase]
    exact ⟨rfl, rfl⟩

/-- Witness for the amended claim C7: typing `12` recomputes the list,
inserting a template does not, and submitting the invalid draft issues
no request. -/
theorem c7_amended_revalidation_witness :
    (handleTextInputChange initState "12").validationErrors = displayedValidation "12" ∧
    (applyTemplate typedDigitsState analyticsTemplate).validationErrors =
      typedDigitsState.validationErrors ∧
    (processRequirements typedDigitsState (.ok pendingData) (.ok pendingData)).2.procReqs = [] :=
  ⟨(c7_amended_revalidation.1 initState "12").1,
   c7_amended_revalidation.2.1 typedDigitsState analyticsTemplate,
   (c7_amended_revalidation.2.2 typedDigitsState (.ok pendingData) (.ok pendingData)
      rfl (by decide) (by decide)).1⟩

end ReqIntake
